import Mathlib

/-!
# Verification of the Product REST service (NYU-DevOps-Products)

Shallow embedding of `service/models.py` (the `Product` entity with its
`serialize`/`deserialize` logic) and `service/routes.py` (the resource
handlers for create, retrieve, update, list-with-filter and purchase),
together with proofs about the behaviour the specification describes.

Scalar JSON/Python values are modelled by `PyVal`; a parsed request body is
either a string-keyed mapping (`PyInput.dict`) or some non-mapping value
(`PyInput.scalar`).  Python-specific semantics that the source code relies
on are made explicit:
  * `bool` is a subclass of `int`, so `isinstance(x, int)` is true for
    booleans (`isInstInt`);
  * truthiness (`pyTruthy`) drives the short-circuit in
    `stock and stock.isdigit()`;
  * calling `.isdigit()` on a truthy value that is neither an `int`
    instance nor a `str` raises an uncaught `AttributeError`
    (the `except AttributeError` handler in the source is commented out);
  * `str.isdigit` is modelled over the ASCII digits `0`-`9`, the alphabet
    exercised by the service's JSON payloads.
Python floats only ever meet the embedded code through truthiness
(zero / non-zero), so they are carried as rationals.
-/

namespace ProductService

/-- A scalar Python/JSON value as it reaches `Product.deserialize`. -/
inductive PyVal where
  | vNone : PyVal
  | vBool (b : Bool) : PyVal
  | vInt (n : Int) : PyVal
  | vFloat (q : ℚ) : PyVal
  | vStr (s : String) : PyVal
deriving DecidableEq, Repr

/-- A parsed JSON object: an association list of string keys to values,
as produced by `request.get_json()` for a JSON object body. -/
abbrev PyDict := List (String × PyVal)

/-- A parsed request body: either a mapping or some non-mapping value
(subscripting a non-mapping with a string key raises `TypeError`). -/
inductive PyInput where
  | dict (d : PyDict) : PyInput
  | scalar (v : PyVal) : PyInput
deriving DecidableEq, Repr

/-- Python truthiness of a scalar value. -/
def pyTruthy : PyVal → Bool
  | .vNone => false
  | .vBool b => b
  | .vInt n => n ≠ 0
  | .vFloat q => q ≠ 0
  | .vStr s => s ≠ ""

/-- `isinstance(v, int)` — true for `int` and for `bool`, which is a
subclass of `int` in Python. -/
def isInstInt : PyVal → Bool
  | .vBool _ => true
  | .vInt _ => true
  | _ => false

/-- `str.isdigit` over the ASCII digits: non-empty and all characters
in `0`-`9`. -/
def pyIsdigit (s : String) : Bool :=
  s ≠ "" && s.data.all Char.isDigit

/-- Decimal value of a digit-character list, most significant first. -/
def digitsToNat : List Char → Nat → Nat
  | [], acc => acc
  | c :: rest, acc => digitsToNat rest (acc * 10 + (c.toNat - 48))

/-- `int(v)` for the values the accepted branch of `deserialize` feeds it:
`int` instances (booleans become 0/1) and all-digit strings. -/
def pyToInt : PyVal → Int
  | .vBool b => if b then 1 else 0
  | .vInt n => n
  | .vStr s => (digitsToNat s.data 0 : Int)
  | _ => 0

/-- `str(type(v))` as used in the validation-error messages. -/
def pyTypeName : PyVal → String
  | .vNone => "<class \x27NoneType\x27>"
  | .vBool _ => "<class \x27bool\x27>"
  | .vInt _ => "<class \x27int\x27>"
  | .vFloat _ => "<class \x27float\x27>"
  | .vStr _ => "<class \x27str\x27>"

/-- Outcome of evaluating the guard
`isinstance(v, int) or (v and v.isdigit())` from `Product.deserialize`. -/
inductive GuardResult where
  | accept : GuardResult
  | reject : GuardResult
  | attrError : GuardResult
deriving DecidableEq, Repr

/-- Evaluation of the guard `isinstance(v, int) or (v and v.isdigit())`
from `Product.deserialize`:
  * `.accept` — the value is accepted for an integer field;
  * `.reject` — the guard is false (the `else` branch raises
    `DataValidationError`);
  * `.attrError` — evaluating `v.isdigit()` on a truthy value that is
    neither an `int` instance nor a `str` raises `AttributeError`,
    which nothing in the source catches. -/
def intFieldCheck (v : PyVal) : GuardResult :=
  if isInstInt v then .accept
  else if !pyTruthy v then .reject
  else match v with
    | .vStr s => if pyIsdigit s then .accept else .reject
    | _ => .attrError

/-- The exceptions `Product.deserialize` can leave behind:
`DataValidationError` (mapped to HTTP 400 by the `api.errorhandler`) or an
uncaught `AttributeError`. -/
inductive DErr where
  | dve (msg : String) : DErr
  | attrErr : DErr
deriving DecidableEq, Repr

/-- The `Product` entity (table schema of `service/models.py`).
`name`, `category` and `description` hold whatever value `deserialize`
assigned them (Python attributes are untyped); `price` and `stock` are
integers — `deserialize` only ever stores `int(...)` there and the columns
are `db.Integer`.  `id` is the primary key, `none` before creation. -/
structure Product where
  id : Option Nat
  name : PyVal
  category : PyVal
  price : Int
  stock : Int
  description : PyVal
deriving DecidableEq, Repr

/-- `Product()` with no attributes set.  In Python the unset columns are
`None`; the integer placeholders 0 for `price`/`stock` are never observed,
since every path that persists or serializes a fresh product first runs a
successful `deserialize`, which overwrites both. -/
def Product.empty : Product :=
  { id := none, name := .vNone, category := .vNone,
    price := 0, stock := 0, description := .vNone }

/-- `Product.serialize`: the six-field dictionary. -/
def Product.serialize (p : Product) : PyDict :=
  [ ("id", match p.id with | none => PyVal.vNone | some i => PyVal.vInt (i : Int)),
    ("name", p.name),
    ("category", p.category),
    ("price", PyVal.vInt p.price),
    ("stock", PyVal.vInt p.stock),
    ("description", p.description) ]

/-- `Product.deserialize(self, data)`, including its mutation order.
The result is the state of `self` when the call returns or the exception
escapes, paired with the exception if one was raised:
  * `data` not a mapping: subscripting raises `TypeError`, caught and
    re-raised as `DataValidationError` ("bad or no data"), `self` untouched;
  * `name`, `category`, `description` are copied in that order; a missing
    key raises `KeyError`, caught as `DataValidationError` ("missing ..."),
    leaving the earlier assignments in place;
  * `stock = data.get("stock", "")` then the integer guard: on success
    `self.stock = int(stock)`; on a false guard the error message evaluates
    `data["stock"]` (so a missing key surfaces as "missing stock"); a
    truthy non-`int`/non-`str` value raises `AttributeError` uncaught;
  * the same for `price`. -/
def Product.deserialize (p : Product) (data : PyInput) : Product × Option DErr :=
  match data with
  | .scalar _ =>
      (p, some (.dve "Invalid Product: body of request contained bad or no data"))
  | .dict d =>
    match d.lookup "name" with
    | none => (p, some (.dve "Invalid Product: missing name"))
    | some nv =>
      let p1 := { p with name := nv }
      match d.lookup "category" with
      | none => (p1, some (.dve "Invalid Product: missing category"))
      | some cv =>
        let p2 := { p1 with category := cv }
        match d.lookup "description" with
        | none => (p2, some (.dve "Invalid Product: missing description"))
        | some dv =>
          let p3 := { p2 with description := dv }
          let stockv := (d.lookup "stock").getD (.vStr "")
          match intFieldCheck stockv with
          | .attrError => (p3, some .attrErr)
          | .reject =>
            match d.lookup "stock" with
            | none => (p3, some (.dve "Invalid Product: missing stock"))
            | some sv =>
              (p3, some (.dve ("Invalid type for integer [stock]: " ++ pyTypeName sv)))
          | .accept =>
            let p4 := { p3 with stock := pyToInt stockv }
            let pricev := (d.lookup "price").getD (.vStr "")
            match intFieldCheck pricev with
            | .attrError => (p4, some .attrErr)
            | .reject =>
              match d.lookup "price" with
              | none => (p4, some (.dve "Invalid Product: missing price"))
              | some pv =>
                (p4, some (.dve ("Invalid type for integer [price]: " ++ pyTypeName pv)))
            | .accept =>
              ({ p4 with price := pyToInt pricev }, none)

/-!
## The entity store and the resource handlers (`service/routes.py`)

The relational store is a list of rows keyed by the integer primary key,
plus the auto-increment counter (the first assigned id is 1, as the
repository's own tests assert).  A handler result is
`(HTTP status, optional serialized body, resulting store)`.
-/

/-- The persistent store: rows keyed by primary key, and the next id the
auto-increment sequence will hand out. -/
structure Store where
  rows : List (Nat × Product)
  nextId : Nat
deriving DecidableEq, Repr

/-- A freshly initialized (empty) database. -/
def Store.empty : Store := { rows := [], nextId := 1 }

/-- `Product.find`: primary-key lookup, `none` when absent. -/
def Store.find (s : Store) (pid : Nat) : Option Product :=
  s.rows.lookup pid

/-- `Product.update` (commit of the mutated row): replace the row whose
key is `pid` with the mutated entity. -/
def Store.updateRow (s : Store) (pid : Nat) (q : Product) : Store :=
  { s with rows := s.rows.map (fun r => if r.1 = pid then (pid, q) else r) }

/-- `check_content_type("application/json")` succeeds iff the header is
present, truthy and exactly equal to the expected media type. -/
def contentTypeOk (ct : Option String) : Bool :=
  match ct with
  | some c => c ≠ "" && c = "application/json"
  | none => false

/-- Lowercase an ASCII letter, identity on everything else (werkzeug
lowercases the mimetype). -/
def lowerChar (c : Char) : Char :=
  if 'A' ≤ c && c ≤ 'Z' then Char.ofNat (c.toNat + 32) else c

/-- The characters of a header value before the first parameter
separator `;`. -/
def beforeSemicolon : List Char → List Char
  | [] => []
  | c :: rest => if c = ';' then [] else c :: beforeSemicolon rest

/-- Strip the surrounding blanks (space / horizontal tab, the blank
characters that occur in Content-Type headers). -/
def stripBlanks (cs : List Char) : List Char :=
  ((cs.dropWhile (fun c => c = ' ' || c = '\t')).reverse.dropWhile
    (fun c => c = ' ' || c = '\t')).reverse

/-- `request.mimetype`: the Content-Type value up to the first `;`,
stripped of surrounding blanks and lowercased.  Werkzeug parses the
header this way, so parameters such as `charset=utf-8` do not participate
in the JSON check. -/
def headerMimetype (c : String) : String :=
  ⟨(stripBlanks (beforeSemicolon c.data)).map lowerChar⟩

/-- `request.is_json`: the mimetype is `application/json` or an
`application/*+json` suffix type. -/
def isJsonContentType : Option String → Bool
  | none => false
  | some c =>
    let mt := headerMimetype c
    mt = "application/json" ||
      (("application/".data).isPrefixOf mt.data &&
        ("+json".data).isSuffixOf mt.data)

/-- `api.payload` (= `request.get_json()`): the parsed body whenever the
request's *mimetype* is JSON — so `application/json; charset=utf-8` and
`Application/JSON` parse fine — and Python `None` otherwise (Flask
returns `None` from `get_json` for a non-JSON mimetype; no exception is
raised at this point). -/
def apiPayload (ct : Option String) (body : PyInput) : PyInput :=
  if isJsonContentType ct then body else .scalar .vNone

/-- `ProductResource.get`: retrieve a single product, 404 when absent. -/
def getProduct (s : Store) (pid : Nat) : Nat × Option PyDict :=
  match s.find pid with
  | none => (404, none)
  | some p => (200, some p.serialize)

/-- `ProductCollection.post`: create.  `check_content_type` runs first
(415 on failure, before the body is touched); then the payload is
deserialized into a fresh `Product`; a `DataValidationError` is mapped to
400 by the registered error handler (an uncaught `AttributeError` becomes
a 500); on success the id is cleared and the auto-increment assigns the
next key, the row is persisted, and the serialized entity is returned
with 201. -/
def createProduct (s : Store) (ct : Option String) (body : PyInput) :
    Nat × Option PyDict × Store :=
  if !contentTypeOk ct then (415, none, s)
  else
    match Product.empty.deserialize (apiPayload ct body) with
    | (_, some (.dve _)) => (400, none, s)
    | (_, some .attrErr) => (500, none, s)
    | (p, none) =>
      let newP := { p with id := some s.nextId }
      (201, some newP.serialize,
        { rows := s.rows ++ [(s.nextId, newP)], nextId := s.nextId + 1 })

/-- `ProductResource.put`: update.  Lookup first (404 when absent, before
any body validation); no content-type check is performed — the payload is
whatever `api.payload` yields; the body is deserialized onto the found
entity, the id is forced back to the path id, and the row is persisted
(on a `DataValidationError` the transaction never commits: 400 with the
store unchanged; an uncaught `AttributeError` is a 500). -/
def updateProduct (s : Store) (pid : Nat) (ct : Option String) (body : PyInput) :
    Nat × Option PyDict × Store :=
  match s.find pid with
  | none => (404, none, s)
  | some p =>
    match p.deserialize (apiPayload ct body) with
    | (_, some (.dve _)) => (400, none, s)
    | (_, some .attrErr) => (500, none, s)
    | (p1, none) =>
      let q := { p1 with id := some pid }
      (200, some q.serialize, s.updateRow pid q)

/-- `PurchaseResource.put`: 404 when absent; 409 (without mutating) when
the current stock is ≤ 0; otherwise decrement the stock by exactly one,
persist, and return the serialized updated entity with 200. -/
def purchaseProduct (s : Store) (pid : Nat) : Nat × Option PyDict × Store :=
  match s.find pid with
  | none => (404, none, s)
  | some p =>
    if p.stock ≤ 0 then (409, none, s)
    else
      let q := { p with stock := p.stock - 1 }
      (200, some q.serialize, s.updateRow pid q)

/-- A `Product` whose fields carry the wire types the schema declares:
string `name` and `category`, string-or-null `description`, non-negative
integer `price` and `stock`. -/
def ValidProduct (p : Product) : Prop :=
  (∃ s, p.name = PyVal.vStr s) ∧ (∃ s, p.category = PyVal.vStr s) ∧
  (p.description = PyVal.vNone ∨ ∃ s, p.description = PyVal.vStr s) ∧
  0 ≤ p.price ∧ 0 ≤ p.stock

/-- Truthiness of a parsed query-string argument (`args["name"]` is `None`
when the parameter is absent, and the empty string — falsy — when it is
supplied without a value). -/
def argTruthy : Option String → Bool
  | some s => s ≠ ""
  | none => false

/-- `ProductCollection.get`: list, with the optional `name` and `category`
filters; `name` is tested first, `category` only when `name` is absent or
falsy; with neither, all rows are returned.  Always 200 with the array of
serialized products. -/
def listProducts (s : Store) (nameArg categoryArg : Option String) :
    Nat × List PyDict :=
  let prods :=
    if argTruthy nameArg then
      (s.rows.filter (fun r => r.2.name = PyVal.vStr (nameArg.getD ""))).map (·.2)
    else if argTruthy categoryArg then
      (s.rows.filter (fun r => r.2.category = PyVal.vStr (categoryArg.getD ""))).map (·.2)
    else
      s.rows.map (·.2)
  (200, prods.map Product.serialize)

/-!
## Helper lemmas about the store
-/

/-- Looking up a key after `updateRow` on that key yields the new row,
provided the key was present. -/
theorem lookup_map_update (rows : List (Nat × Product)) (pid : Nat) (p q : Product)
    (h : rows.lookup pid = some p) :
    (rows.map (fun r => if r.1 = pid then (pid, q) else r)).lookup pid = some q := by
  induction rows with
  | nil => simp at h
  | cons hd tl ih =>
    rcases hd with ⟨k, v⟩
    by_cases hk : k = pid
    · subst hk
      simp [List.lookup_cons]
    · have hne : (pid == k) = false := beq_false_of_ne (Ne.symm hk)
      simp only [List.lookup_cons, hne] at h
      simp only [List.map_cons, hk, if_false, List.lookup_cons, hne]
      exact ih h

/-- Looking up a key appended at the end succeeds when no earlier row
carries that key. -/
theorem lookup_append_last (rows : List (Nat × Product)) (k : Nat) (q : Product)
    (h : ∀ r ∈ rows, r.1 ≠ k) :
    (rows ++ [(k, q)]).lookup k = some q := by
  induction rows with
  | nil => simp [List.lookup_cons]
  | cons hd tl ih =>
    have h1 : hd.1 ≠ k := h hd (by simp)
    have hne : (k == hd.1) = false := beq_false_of_ne (Ne.symm h1)
    rcases hd with ⟨k1, v⟩
    simp only [List.cons_append, List.lookup_cons, hne]
    exact ih (fun r hr => h r (by simp [hr]))

/-- The exact media type `application/json` has a JSON mimetype. -/
theorem isJsonContentType_exact :
    isJsonContentType (some "application/json") = true := by
  decide

/-!
## The claims
-/

/-- C4: the claim says the `description` field is optional — that an input
with valid `name`, `category`, `price` and `stock` but no `description`
key deserializes successfully.  The code disagrees: `deserialize` reads
`data["description"]` unconditionally, so the missing key raises
`KeyError` and surfaces as `DataValidationError` ("missing description"),
even though the service's own Swagger model marks every field except
`description` as required.  This theorem evaluates the code at the
failing input. -/
theorem deserialize_requires_description :
    Product.deserialize Product.empty
      (.dict [("name", .vStr "A"), ("category", .vStr "B"),
              ("price", .vInt 1), ("stock", .vInt 1)]) =
    ({ id := none, name := .vStr "A", category := .vStr "B",
       price := 0, stock := 0, description := .vNone },
     some (.dve "Invalid Product: missing description")) := by
  decide

/-- C2: purchasing a stored product whose stock is `n > 0` decrements the
stock to exactly `n - 1`, persists the row, and returns 200 with the
serialized updated entity; a subsequent find returns the decremented
product. -/
theorem purchase_decrements_stock (s : Store) (pid : Nat) (p : Product) (n : Int)
    (hfind : s.find pid = some p) (hstock : p.stock = n) (hpos : 0 < n) :
    purchaseProduct s pid =
      (200, some (Product.serialize { p with stock := n - 1 }),
        s.updateRow pid { p with stock := n - 1 }) ∧
    (s.updateRow pid { p with stock := n - 1 }).find pid =
      some { p with stock := n - 1 } := by
  constructor
  · simp only [purchaseProduct, hfind, hstock]
    rw [if_neg (by omega)]
  · exact lookup_map_update s.rows pid p { p with stock := n - 1 } hfind

/-- Witness for C2 at a concrete store. -/
theorem purchase_decrements_stock_witness :
    purchaseProduct
      { rows := [(1, { id := some 1, name := .vStr "Xiaomi",
                       category := .vStr "Phone", price := 999, stock := 5,
                       description := .vStr "t" })], nextId := 2 } 1 =
      (200,
       some (Product.serialize
         { id := some 1, name := .vStr "Xiaomi", category := .vStr "Phone",
           price := 999, stock := 4, description := .vStr "t" }),
       Store.updateRow
         { rows := [(1, { id := some 1, name := .vStr "Xiaomi",
                          category := .vStr "Phone", price := 999, stock := 5,
                          description := .vStr "t" })], nextId := 2 } 1
         { id := some 1, name := .vStr "Xiaomi", category := .vStr "Phone",
           price := 999, stock := 4, description := .vStr "t" }) := by
  have h := purchase_decrements_stock
    { rows := [(1, { id := some 1, name := .vStr "Xiaomi",
                     category := .vStr "Phone", price := 999, stock := 5,
                     description := .vStr "t" })], nextId := 2 } 1
    { id := some 1, name := .vStr "Xiaomi", category := .vStr "Phone",
      price := 999, stock := 5, description := .vStr "t" } 5
    (by decide) (by decide) (by decide)
  exact h.1

/-- C3: purchasing a stored product whose stock is ≤ 0 returns 409 with
the store (hence the product) entirely unchanged; purchasing an id with
no stored product returns 404, also leaving the store unchanged. -/
theorem purchase_conflict_and_missing (s : Store) (pid : Nat) :
    (∀ p, s.find pid = some p → p.stock ≤ 0 →
        purchaseProduct s pid = (409, none, s)) ∧
    (s.find pid = none → purchaseProduct s pid = (404, none, s)) := by
  constructor
  · intro p hfind hle
    simp only [purchaseProduct, hfind]
    rw [if_pos hle]
  · intro hnone
    simp only [purchaseProduct, hnone]

/-- Witness for C3: a zero-stock product yields 409 and an unknown id
yields 404, both with the store unchanged. -/
theorem purchase_conflict_and_missing_witness :
    purchaseProduct
      { rows := [(1, { id := some 1, name := .vStr "X", category := .vStr "P",
                       price := 9, stock := 0, description := .vNone })],
        nextId := 2 } 1 =
      (409, none,
       { rows := [(1, { id := some 1, name := .vStr "X", category := .vStr "P",
                        price := 9, stock := 0, description := .vNone })],
         nextId := 2 }) ∧
    purchaseProduct
      { rows := [(1, { id := some 1, name := .vStr "X", category := .vStr "P",
                       price := 9, stock := 0, description := .vNone })],
        nextId := 2 } 7 =
      (404, none,
       { rows := [(1, { id := some 1, name := .vStr "X", category := .vStr "P",
                        price := 9, stock := 0, description := .vNone })],
         nextId := 2 }) := by
  constructor
  · exact (purchase_conflict_and_missing
      { rows := [(1, { id := some 1, name := .vStr "X", category := .vStr "P",
                       price := 9, stock := 0, description := .vNone })],
        nextId := 2 } 1).1
      { id := some 1, name := .vStr "X", category := .vStr "P",
        price := 9, stock := 0, description := .vNone }
      (by decide) (by decide)
  · exact (purchase_conflict_and_missing
      { rows := [(1, { id := some 1, name := .vStr "X", category := .vStr "P",
                       price := 9, stock := 0, description := .vNone })],
        nextId := 2 } 7).2 (by decide)

/-- C5: deserializing the dictionary produced by `serialize p` onto a
fresh `Product` succeeds and reproduces every field of `p` except `id`
(the fresh target's `id` stays `none`). -/
theorem serialize_deserialize_roundtrip (p : Product) (_hv : ValidProduct p) :
    ∃ q, Product.deserialize Product.empty (.dict p.serialize) = (q, none) ∧
      q.name = p.name ∧ q.category = p.category ∧ q.price = p.price ∧
      q.stock = p.stock ∧ q.description = p.description := by
  refine ⟨{ id := none, name := p.name, category := p.category,
            price := p.price, stock := p.stock, description := p.description },
          ?_, rfl, rfl, rfl, rfl, rfl⟩
  rfl

/-- Witness for C5 at a concrete valid product. -/
theorem serialize_deserialize_roundtrip_witness :
    ∃ q, Product.deserialize Product.empty
        (.dict (Product.serialize
          { id := some 3, name := .vStr "iPhone13", category := .vStr "Phone",
            price := 999, stock := 5, description := .vStr "x" })) = (q, none) ∧
      q.name = PyVal.vStr "iPhone13" ∧ q.category = PyVal.vStr "Phone" ∧
      q.price = 999 ∧ q.stock = 5 ∧ q.description = PyVal.vStr "x" :=
  serialize_deserialize_roundtrip
    { id := some 3, name := .vStr "iPhone13", category := .vStr "Phone",
      price := 999, stock := 5, description := .vStr "x" }
    ⟨⟨"iPhone13", rfl⟩, ⟨"Phone", rfl⟩, Or.inr ⟨"x", rfl⟩,
     by decide, by decide⟩

/-- C6 counterexample: on an empty store, a create request whose payload
itself carries `id = 1` is assigned the new id 1, so the freshly assigned
id is NOT distinct from the id present in the input. -/
theorem create_id_equals_input_id :
    (List.lookup "id"
        [("id", PyVal.vInt 1), ("name", PyVal.vStr "A"),
         ("category", PyVal.vStr "B"), ("description", PyVal.vNone),
         ("stock", PyVal.vInt 5), ("price", PyVal.vInt 9)]
      = some (PyVal.vInt 1)) ∧
    createProduct Store.empty (some "application/json")
      (.dict [("id", PyVal.vInt 1), ("name", PyVal.vStr "A"),
              ("category", PyVal.vStr "B"), ("description", PyVal.vNone),
              ("stock", PyVal.vInt 5), ("price", PyVal.vInt 9)]) =
      (201,
       some (Product.serialize
         { id := some 1, name := .vStr "A", category := .vStr "B",
           price := 9, stock := 5, description := .vNone }),
       { rows := [(1, { id := some 1, name := .vStr "A", category := .vStr "B",
                        price := 9, stock := 5, description := .vNone })],
         nextId := 2 }) := by
  decide

/-- C6 (amended): create assigns the store's next auto-increment id,
which does not depend on the request payload (in particular any
caller-supplied id is discarded); whenever every stored id is below the
counter — the store invariant — the new id differs from every stored id,
and find by the new id returns the created product. -/
theorem create_assigns_next_id (s : Store) (body : PyInput) (q : Product)
    (hfresh : ∀ r ∈ s.rows, r.1 < s.nextId)
    (hde : Product.empty.deserialize body = (q, none)) :
    createProduct s (some "application/json") body =
      (201, some (Product.serialize { q with id := some s.nextId }),
       { rows := s.rows ++ [(s.nextId, { q with id := some s.nextId })],
         nextId := s.nextId + 1 }) ∧
    (∀ r ∈ s.rows, r.1 ≠ s.nextId) ∧
    (Store.mk (s.rows ++ [(s.nextId, { q with id := some s.nextId })])
        (s.nextId + 1)).find s.nextId = some { q with id := some s.nextId } := by
  have hne : ∀ r ∈ s.rows, r.1 ≠ s.nextId := fun r hr => Nat.ne_of_lt (hfresh r hr)
  refine ⟨?_, hne, ?_⟩
  · simp only [createProduct, apiPayload, contentTypeOk, isJsonContentType_exact]
    simp [hde]
  · exact lookup_append_last s.rows s.nextId _ hne

/-- Witness for C6 (amended) at a concrete store and payload. -/
theorem create_assigns_next_id_witness :
    createProduct { rows := [], nextId := 1 } (some "application/json")
      (.dict [("id", PyVal.vInt 7), ("name", PyVal.vStr "A"),
              ("category", PyVal.vStr "B"), ("description", PyVal.vNone),
              ("stock", PyVal.vInt 5), ("price", PyVal.vInt 9)]) =
      (201,
       some (Product.serialize
         { id := some 1, name := .vStr "A", category := .vStr "B",
           price := 9, stock := 5, description := .vNone }),
       { rows := [(1, { id := some 1, name := .vStr "A", category := .vStr "B",
                        price := 9, stock := 5, description := .vNone })],
         nextId := 2 }) :=
  (create_assigns_next_id { rows := [], nextId := 1 }
    (.dict [("id", PyVal.vInt 7), ("name", PyVal.vStr "A"),
            ("category", PyVal.vStr "B"), ("description", PyVal.vNone),
            ("stock", PyVal.vInt 5), ("price", PyVal.vInt 9)])
    { id := none, name := .vStr "A", category := .vStr "B",
      price := 9, stock := 5, description := .vNone }
    (by simp) (by decide)).1

/-- C7: updating a stored product with a valid JSON body overwrites every
mutable field with the body's values, forces the entity's id back to the
path id (the body's own id, if any, is ignored), persists the row, and
returns 200 with the serialized result; a subsequent retrieve returns the
new field values under the original id. -/
theorem update_overwrites_and_forces_id (s : Store) (pid : Nat) (p : Product)
    (d : PyDict) (nv cv dv sv pv : PyVal)
    (hfind : s.find pid = some p)
    (hn : d.lookup "name" = some nv) (hc : d.lookup "category" = some cv)
    (hdd : d.lookup "description" = some dv)
    (hs : d.lookup "stock" = some sv) (hsc : intFieldCheck sv = .accept)
    (hp : d.lookup "price" = some pv) (hpc : intFieldCheck pv = .accept) :
    updateProduct s pid (some "application/json") (.dict d) =
      (200,
       some (Product.serialize
         { id := some pid, name := nv, category := cv,
           price := pyToInt pv, stock := pyToInt sv, description := dv }),
       s.updateRow pid
         { id := some pid, name := nv, category := cv,
           price := pyToInt pv, stock := pyToInt sv, description := dv }) ∧
    getProduct
      (s.updateRow pid
        { id := some pid, name := nv, category := cv,
          price := pyToInt pv, stock := pyToInt sv, description := dv }) pid =
      (200,
       some (Product.serialize
         { id := some pid, name := nv, category := cv,
           price := pyToInt pv, stock := pyToInt sv, description := dv })) := by
  have hdeser : p.deserialize (.dict d) =
      ({ id := p.id, name := nv, category := cv, price := pyToInt pv,
         stock := pyToInt sv, description := dv }, none) := by
    simp only [Product.deserialize, hn, hc, hdd, hs, hp, Option.getD_some, hsc, hpc]
  have hlook := lookup_map_update s.rows pid p
    { id := some pid, name := nv, category := cv,
      price := pyToInt pv, stock := pyToInt sv, description := dv } hfind
  constructor
  · simp only [updateProduct, hfind, apiPayload, contentTypeOk, isJsonContentType_exact]
    simp [hdeser]
  · simp only [getProduct, Store.find, Store.updateRow, hlook]

/-- Witness for C7 at a concrete store, with a body carrying a mismatched
id (999) that is discarded in favour of the path id (1). -/
theorem update_overwrites_and_forces_id_witness :
    updateProduct
      { rows := [(1, { id := some 1, name := .vStr "old", category := .vStr "oldc",
                       price := 5, stock := 5, description := .vStr "oldd" })],
        nextId := 2 } 1 (some "application/json")
      (.dict [("id", .vInt 999), ("name", .vStr "N"), ("category", .vStr "C"),
              ("description", .vStr "D"), ("stock", .vStr "7"),
              ("price", .vInt 3)]) =
      (200,
       some (Product.serialize
         { id := some 1, name := .vStr "N", category := .vStr "C",
           price := pyToInt (.vInt 3), stock := pyToInt (.vStr "7"),
           description := .vStr "D" }),
       Store.updateRow
         { rows := [(1, { id := some 1, name := .vStr "old", category := .vStr "oldc",
                          price := 5, stock := 5, description := .vStr "oldd" })],
           nextId := 2 } 1
         { id := some 1, name := .vStr "N", category := .vStr "C",
           price := pyToInt (.vInt 3), stock := pyToInt (.vStr "7"),
           description := .vStr "D" }) :=
  (update_overwrites_and_forces_id
    { rows := [(1, { id := some 1, name := .vStr "old", category := .vStr "oldc",
                     price := 5, stock := 5, description := .vStr "oldd" })],
      nextId := 2 } 1
    { id := some 1, name := .vStr "old", category := .vStr "oldc",
      price := 5, stock := 5, description := .vStr "oldd" }
    [("id", .vInt 999), ("name", .vStr "N"), ("category", .vStr "C"),
     ("description", .vStr "D"), ("stock", .vStr "7"), ("price", .vInt 3)]
    (.vStr "N") (.vStr "C") (.vStr "D") (.vStr "7") (.vInt 3)
    (by decide) (by decide) (by decide) (by decide) (by decide) (by decide)
    (by decide) (by decide)).1

/-- C8 counterexample: supplying the name filter with the empty string is
falsy in Python and falls through to the unfiltered branch — the listing
returns every row (here, a product named "A"), not the set of products
whose name equals the supplied filter value "" (which is empty). -/
theorem list_empty_name_filter_returns_all :
    listProducts
      { rows := [(1, { id := some 1, name := .vStr "A", category := .vStr "C",
                       price := 1, stock := 1, description := .vNone })],
        nextId := 2 } (some "") none =
      (200, [Product.serialize
        { id := some 1, name := .vStr "A", category := .vStr "C",
          price := 1, stock := 1, description := .vNone }]) ∧
    List.filter
      (fun r => r.2.name = PyVal.vStr "")
      [((1 : Nat), { id := some 1, name := .vStr "A", category := .vStr "C",
                     price := 1, stock := 1,
                     description := .vNone : Product })] = [] := by
  decide

/-- C8 (amended): with a non-empty `name` filter the listing returns
exactly the serialized stored products whose name equals the filter value
(regardless of any `category` argument — name takes precedence); with the
name argument absent or empty (falsy) and a non-empty `category` filter,
exactly those whose category equals it; with both absent or empty, every
row; a filter matching no row yields the empty array — always status
200. -/
theorem list_filter_semantics (s : Store) (x : String) (hx : x ≠ "") :
    (∀ c, listProducts s (some x) c =
      (200, ((s.rows.filter (fun r => r.2.name = PyVal.vStr x)).map
        (·.2)).map Product.serialize)) ∧
    (∀ n, argTruthy n = false → listProducts s n (some x) =
      (200, ((s.rows.filter (fun r => r.2.category = PyVal.vStr x)).map
        (·.2)).map Product.serialize)) ∧
    (∀ n c, argTruthy n = false → argTruthy c = false →
      listProducts s n c = (200, (s.rows.map (·.2)).map Product.serialize)) ∧
    (∀ c, (∀ r ∈ s.rows, r.2.name ≠ PyVal.vStr x) →
      listProducts s (some x) c = (200, [])) := by
  have htr : argTruthy (some x) = true := by simp [argTruthy, hx]
  refine ⟨?_, ?_, ?_, ?_⟩
  · intro c
    simp [listProducts, htr]
  · intro n hn
    simp [listProducts, hn, htr]
  · intro n c hn hc
    simp [listProducts, hn, hc]
  · intro c hnone
    have hfil : s.rows.filter (fun r => r.2.name = PyVal.vStr x) = [] := by
      rw [List.filter_eq_nil_iff]
      intro a ha
      simpa using hnone a ha
    simp [listProducts, htr, hfil]

/-- Witness for C8 (amended) at a concrete store: exact-match name
filtering, category filtering, the unfiltered listing, and the unmatched
filter. -/
theorem list_filter_semantics_witness :
    listProducts
      { rows := [(1, { id := some 1, name := .vStr "A", category := .vStr "C",
                       price := 1, stock := 1, description := .vNone }),
                 (2, { id := some 2, name := .vStr "B", category := .vStr "D",
                       price := 2, stock := 2, description := .vNone })],
        nextId := 3 } (some "A") (some "D") =
      (200, [Product.serialize
        { id := some 1, name := .vStr "A", category := .vStr "C",
          price := 1, stock := 1, description := .vNone }]) ∧
    listProducts
      { rows := [(1, { id := some 1, name := .vStr "A", category := .vStr "C",
                       price := 1, stock := 1, description := .vNone }),
                 (2, { id := some 2, name := .vStr "B", category := .vStr "D",
                       price := 2, stock := 2, description := .vNone })],
        nextId := 3 } (some "zzz") none = (200, []) := by
  constructor
  · have h := (list_filter_semantics
      { rows := [(1, { id := some 1, name := .vStr "A", category := .vStr "C",
                       price := 1, stock := 1, description := .vNone }),
                 (2, { id := some 2, name := .vStr "B", category := .vStr "D",
                       price := 2, stock := 2, description := .vNone })],
        nextId := 3 } "A" (by decide)).1 (some "D")
    rw [h]
    decide
  · exact (list_filter_semantics
      { rows := [(1, { id := some 1, name := .vStr "A", category := .vStr "C",
                       price := 1, stock := 1, description := .vNone }),
                 (2, { id := some 2, name := .vStr "B", category := .vStr "D",
                       price := 2, stock := 2, description := .vNone })],
        nextId := 3 } "zzz" (by decide)).2.2.2 none (by decide)

/-- C9 counterexample: a PUT update of a stored product with content type
`text/plain` and a perfectly valid JSON body is answered 400, not 415 —
the update route never runs `check_content_type` (only the create route
does); the body merely parses as `None` and deserialization fails. -/
theorem update_wrong_content_type_not_415 :
    updateProduct
      { rows := [(1, { id := some 1, name := .vStr "A", category := .vStr "C",
                       price := 1, stock := 1, description := .vNone })],
        nextId := 2 } 1 (some "text/plain")
      (.dict [("name", .vStr "N"), ("category", .vStr "K"),
              ("description", .vNone), ("stock", .vInt 3), ("price", .vInt 4)]) =
      (400, none,
       { rows := [(1, { id := some 1, name := .vStr "A", category := .vStr "C",
                        price := 1, stock := 1, description := .vNone })],
         nextId := 2 }) ∧
    (updateProduct
      { rows := [(1, { id := some 1, name := .vStr "A", category := .vStr "C",
                       price := 1, stock := 1, description := .vNone })],
        nextId := 2 } 1 (some "text/plain")
      (.dict [("name", .vStr "N"), ("category", .vStr "K"),
              ("description", .vNone), ("stock", .vInt 3), ("price", .vInt 4)])).1
      ≠ 415 := by
  decide

/-- C9 (amended): the create route checks the content type before touching
the body — any header other than exactly `application/json` (even
`application/json; charset=utf-8`) is answered 415 with the store
unchanged.  The update route performs no such check; its behaviour is
decided by `request.get_json()`'s mimetype test instead: with a non-JSON
mimetype the body parses as `None`, deserialization raises
`DataValidationError`, and the answer is 400 — not 415 — with the store
unchanged; but with any JSON mimetype — e.g.
`application/json; charset=utf-8` — the body parses and a valid update
succeeds with 200 and mutates the row. -/
theorem content_type_enforcement (s : Store) (ct : Option String)
    (body : PyInput) (pid : Nat) (p : Product) :
    (ct ≠ some "application/json" → createProduct s ct body = (415, none, s)) ∧
    (isJsonContentType ct = false → s.find pid = some p →
      updateProduct s pid ct body = (400, none, s)) ∧
    (∀ q, isJsonContentType ct = true → s.find pid = some p →
      p.deserialize body = (q, none) →
      updateProduct s pid ct body =
        (200, some (Product.serialize { q with id := some pid }),
         s.updateRow pid { q with id := some pid })) := by
  refine ⟨?_, ?_, ?_⟩
  · intro hct
    have hok : contentTypeOk ct = false := by
      cases ct with
      | none => rfl
      | some c =>
        have hc : c ≠ "application/json" := fun h => hct (by rw [h])
        simp [contentTypeOk, hc]
    simp [createProduct, hok]
  · intro hj hfind
    simp [updateProduct, hfind, apiPayload, hj, Product.deserialize]
  · intro q hj hfind hde
    simp [updateProduct, hfind, apiPayload, hj, hde]

/-- Witness for C9 (amended): a create with `application/json;
charset=utf-8` is 415 (the exact-equality check fails); an update of a
stored product with `text/plain` is 400 with the store unchanged; the same
update with `application/json; charset=utf-8` parses the body, succeeds
with 200 and mutates the row. -/
theorem content_type_enforcement_witness :
    createProduct
      { rows := [(1, { id := some 1, name := .vStr "A", category := .vStr "C",
                       price := 1, stock := 1, description := .vNone })],
        nextId := 2 } (some "application/json; charset=utf-8")
      (.dict [("name", .vStr "N"), ("category", .vStr "K"),
              ("description", .vNone), ("stock", .vInt 3), ("price", .vInt 4)]) =
      (415, none,
       { rows := [(1, { id := some 1, name := .vStr "A", category := .vStr "C",
                        price := 1, stock := 1, description := .vNone })],
         nextId := 2 }) ∧
    updateProduct
      { rows := [(1, { id := some 1, name := .vStr "A", category := .vStr "C",
                       price := 1, stock := 1, description := .vNone })],
        nextId := 2 } 1 (some "text/plain")
      (.dict [("name", .vStr "N"), ("category", .vStr "K"),
              ("description", .vNone), ("stock", .vInt 3), ("price", .vInt 4)]) =
      (400, none,
       { rows := [(1, { id := some 1, name := .vStr "A", category := .vStr "C",
                        price := 1, stock := 1, description := .vNone })],
         nextId := 2 }) ∧
    updateProduct
      { rows := [(1, { id := some 1, name := .vStr "A", category := .vStr "C",
                       price := 1, stock := 1, description := .vNone })],
        nextId := 2 } 1 (some "application/json; charset=utf-8")
      (.dict [("name", .vStr "N"), ("category", .vStr "K"),
              ("description", .vNone), ("stock", .vInt 3), ("price", .vInt 4)]) =
      (200,
       some (Product.serialize
         { id := some 1, name := .vStr "N", category := .vStr "K",
           price := 4, stock := 3, description := .vNone }),
       Store.updateRow
         { rows := [(1, { id := some 1, name := .vStr "A", category := .vStr "C",
                          price := 1, stock := 1, description := .vNone })],
           nextId := 2 } 1
         { id := some 1, name := .vStr "N", category := .vStr "K",
           price := 4, stock := 3, description := .vNone }) := by
  refine ⟨?_, ?_, ?_⟩
  · exact (content_type_enforcement
      { rows := [(1, { id := some 1, name := .vStr "A", category := .vStr "C",
                       price := 1, stock := 1, description := .vNone })],
        nextId := 2 } (some "application/json; charset=utf-8")
      (.dict [("name", .vStr "N"), ("category", .vStr "K"),
              ("description", .vNone), ("stock", .vInt 3), ("price", .vInt 4)])
      1 Product.empty).1 (by simp)
  · exact (content_type_enforcement
      { rows := [(1, { id := some 1, name := .vStr "A", category := .vStr "C",
                       price := 1, stock := 1, description := .vNone })],
        nextId := 2 } (some "text/plain")
      (.dict [("name", .vStr "N"), ("category", .vStr "K"),
              ("description", .vNone), ("stock", .vInt 3), ("price", .vInt 4)])
      1 { id := some 1, name := .vStr "A", category := .vStr "C",
          price := 1, stock := 1, description := .vNone }).2.1
      (by decide) (by decide)
  · exact (content_type_enforcement
      { rows := [(1, { id := some 1, name := .vStr "A", category := .vStr "C",
                       price := 1, stock := 1, description := .vNone })],
        nextId := 2 } (some "application/json; charset=utf-8")
      (.dict [("name", .vStr "N"), ("category", .vStr "K"),
              ("description", .vNone), ("stock", .vInt 3), ("price", .vInt 4)])
      1 { id := some 1, name := .vStr "A", category := .vStr "C",
          price := 1, stock := 1, description := .vNone }).2.2
      { id := some 1, name := .vStr "N", category := .vStr "K",
        price := 4, stock := 3, description := .vNone }
      (by decide) (by decide) (by decide)

/-- C1 counterexample: a boolean stock value does NOT trigger a
`DataValidationError` — `bool` is a subclass of `int` in Python, so
`isinstance(True, int)` holds and `deserialize` happily sets
`stock = int(True) = 1` and succeeds. -/
theorem deserialize_accepts_boolean_stock :
    Product.deserialize Product.empty
      (.dict [("name", .vStr "A"), ("category", .vStr "B"),
              ("description", .vNone), ("stock", .vBool true),
              ("price", .vInt 2)]) =
      ({ id := none, name := .vStr "A", category := .vStr "B",
         price := 2, stock := 1, description := .vNone }, none) := by
  decide

/-- C1 (amended): with `name`, `category` and `description` present, the
stock field (and likewise price) is accepted exactly when its value is an
`int` instance — which includes Python booleans, coerced to 0/1 — or a
non-empty all-digit string.  A present value failing the guard raises
`DataValidationError` naming the field and the received type; an absent
key raises `DataValidationError` "missing stock"/"missing price"; but a
truthy value that is neither an `int` instance nor a string (e.g. a
non-zero float) raises an uncaught `AttributeError`, not a
`DataValidationError`. -/
theorem deserialize_int_field_classification (tgt : Product) (d : PyDict)
    (nv cv dv : PyVal)
    (hn : d.lookup "name" = some nv) (hc : d.lookup "category" = some cv)
    (hdd : d.lookup "description" = some dv) :
    (∀ sv pv, d.lookup "stock" = some sv → intFieldCheck sv = .accept →
      d.lookup "price" = some pv → intFieldCheck pv = .accept →
      Product.deserialize tgt (.dict d) =
        ({ tgt with name := nv, category := cv, description := dv,
                    stock := pyToInt sv, price := pyToInt pv }, none)) ∧
    (∀ sv, d.lookup "stock" = some sv → intFieldCheck sv = .reject →
      (Product.deserialize tgt (.dict d)).2 =
        some (.dve ("Invalid type for integer [stock]: " ++ pyTypeName sv))) ∧
    (d.lookup "stock" = none →
      (Product.deserialize tgt (.dict d)).2 =
        some (.dve "Invalid Product: missing stock")) ∧
    (∀ sv, d.lookup "stock" = some sv → intFieldCheck sv = .attrError →
      (Product.deserialize tgt (.dict d)).2 = some DErr.attrErr) ∧
    (∀ sv pv, d.lookup "stock" = some sv → intFieldCheck sv = .accept →
      d.lookup "price" = some pv → intFieldCheck pv = .reject →
      (Product.deserialize tgt (.dict d)).2 =
        some (.dve ("Invalid type for integer [price]: " ++ pyTypeName pv))) ∧
    (∀ sv, d.lookup "stock" = some sv → intFieldCheck sv = .accept →
      d.lookup "price" = none →
      (Product.deserialize tgt (.dict d)).2 =
        some (.dve "Invalid Product: missing price")) ∧
    (∀ v, intFieldCheck v = .accept ↔
      (isInstInt v = true ∨ ∃ t, v = PyVal.vStr t ∧ pyIsdigit t = true)) := by
  refine ⟨?_, ?_, ?_, ?_, ?_, ?_, ?_⟩
  · intro sv pv hs hsc hp hpc
    simp only [Product.deserialize, hn, hc, hdd, hs, hp, Option.getD_some, hsc, hpc]
  · intro sv hs hsc
    simp only [Product.deserialize, hn, hc, hdd, hs, Option.getD_some, hsc]
  · intro hmiss
    simp only [Product.deserialize, hn, hc, hdd, hmiss, Option.getD_none]
    rfl
  · intro sv hs hsc
    simp only [Product.deserialize, hn, hc, hdd, hs, Option.getD_some, hsc]
  · intro sv pv hs hsc hp hpc
    simp only [Product.deserialize, hn, hc, hdd, hs, hp, Option.getD_some, hsc, hpc]
  · intro sv hs hsc hmiss
    simp only [Product.deserialize, hn, hc, hdd, hs, hmiss, Option.getD_some,
      Option.getD_none, hsc]
    rfl
  · intro v
    cases v with
    | vNone => simp [intFieldCheck, isInstInt, pyTruthy]
    | vBool b => simp [intFieldCheck, isInstInt]
    | vInt n => simp [intFieldCheck, isInstInt]
    | vFloat q =>
      by_cases hq : q = 0 <;> simp [intFieldCheck, isInstInt, pyTruthy, hq]
    | vStr t =>
      by_cases ht : t = ""
      · subst ht
        simp [intFieldCheck, isInstInt, pyTruthy, pyIsdigit]
      · simp [intFieldCheck, isInstInt, pyTruthy, pyIsdigit, ht]

/-- Witness for C1 (amended): an all-digit string stock and an integer
price are both accepted. -/
theorem deserialize_int_field_classification_witness :
    Product.deserialize Product.empty
      (.dict [("name", .vStr "A"), ("category", .vStr "B"),
              ("description", .vStr "x"), ("stock", .vStr "12"),
              ("price", .vInt 3)]) =
      ({ id := none, name := .vStr "A", category := .vStr "B",
         price := 3, stock := 12, description := .vStr "x" }, none) :=
  (deserialize_int_field_classification Product.empty
      [("name", .vStr "A"), ("category", .vStr "B"),
       ("description", .vStr "x"), ("stock", .vStr "12"), ("price", .vInt 3)]
      (.vStr "A") (.vStr "B") (.vStr "x")
      (by decide) (by decide) (by decide)).1
    (.vStr "12") (.vInt 3) (by decide) (by decide) (by decide) (by decide)

/-- C10: `deserialize` is not atomic on failure.  With `name`, `category`
and `description` present but an invalid or missing stock (or price)
value, the raised error leaves the target with `name`, `category` and
`description` already overwritten by the input's values (stock and price
keeping the target's old values); and when stock was valid but price was
not, the stock is overwritten too. -/
theorem deserialize_partial_mutation_on_failure (tgt : Product) (d : PyDict)
    (nv cv dv : PyVal)
    (hn : d.lookup "name" = some nv) (hc : d.lookup "category" = some cv)
    (hdd : d.lookup "description" = some dv) :
    (intFieldCheck ((d.lookup "stock").getD (.vStr "")) ≠ .accept →
      (Product.deserialize tgt (.dict d)).2 ≠ none ∧
      (Product.deserialize tgt (.dict d)).1 =
        { tgt with name := nv, category := cv, description := dv }) ∧
    (∀ sv, d.lookup "stock" = some sv → intFieldCheck sv = .accept →
      intFieldCheck ((d.lookup "price").getD (.vStr "")) ≠ .accept →
      (Product.deserialize tgt (.dict d)).2 ≠ none ∧
      (Product.deserialize tgt (.dict d)).1 =
        { tgt with name := nv, category := cv, description := dv,
                   stock := pyToInt sv }) := by
  constructor
  · intro hne
    cases hchk : intFieldCheck ((d.lookup "stock").getD (.vStr "")) with
    | accept => exact absurd hchk hne
    | attrError =>
      constructor <;> simp [Product.deserialize, hn, hc, hdd, hchk]
    | reject =>
      cases hlook : d.lookup "stock" with
      | none =>
        rw [hlook] at hchk
        simp only [Option.getD_none] at hchk
        constructor <;> simp [Product.deserialize, hn, hc, hdd, hlook, hchk]
      | some sv =>
        rw [hlook] at hchk
        simp only [Option.getD_some] at hchk
        constructor <;> simp [Product.deserialize, hn, hc, hdd, hlook, hchk]
  · intro sv hs hsc hne
    cases hchk : intFieldCheck ((d.lookup "price").getD (.vStr "")) with
    | accept => exact absurd hchk hne
    | attrError =>
      constructor <;> simp [Product.deserialize, hn, hc, hdd, hs, hsc, hchk]
    | reject =>
      cases hlook : d.lookup "price" with
      | none =>
        rw [hlook] at hchk
        simp only [Option.getD_none] at hchk
        constructor <;>
          simp [Product.deserialize, hn, hc, hdd, hs, hsc, hlook, hchk]
      | some pv =>
        rw [hlook] at hchk
        simp only [Option.getD_some] at hchk
        constructor <;>
          simp [Product.deserialize, hn, hc, hdd, hs, hsc, hlook, hchk]

/-- Witness for C10: on a non-digit string stock, the error is raised with
`name`, `category` and `description` already overwritten and the old stock
and price preserved. -/
theorem deserialize_partial_mutation_witness :
    (Product.deserialize
      { id := some 1, name := .vStr "old", category := .vStr "oldc",
        price := 7, stock := 8, description := .vStr "oldd" }
      (.dict [("name", .vStr "N"), ("category", .vStr "C"),
              ("description", .vStr "D"), ("stock", .vStr "abc"),
              ("price", .vInt 1)])).2 ≠ none ∧
    (Product.deserialize
      { id := some 1, name := .vStr "old", category := .vStr "oldc",
        price := 7, stock := 8, description := .vStr "oldd" }
      (.dict [("name", .vStr "N"), ("category", .vStr "C"),
              ("description", .vStr "D"), ("stock", .vStr "abc"),
              ("price", .vInt 1)])).1 =
      { id := some 1, name := .vStr "N", category := .vStr "C",
        price := 7, stock := 8, description := .vStr "D" } :=
  (deserialize_partial_mutation_on_failure
      { id := some 1, name := .vStr "old", category := .vStr "oldc",
        price := 7, stock := 8, description := .vStr "oldd" }
      [("name", .vStr "N"), ("category", .vStr "C"),
       ("description", .vStr "D"), ("stock", .vStr "abc"), ("price", .vInt 1)]
      (.vStr "N") (.vStr "C") (.vStr "D")
      (by decide) (by decide) (by decide)).1 (by decide)

end ProductService
